import Mathlib

/-!
Verification of the WHOIS lookup backend (`backend/app.py`).

The raw WHOIS record is a parsed JSON value.  We embed JSON values as the
inductive type `JVal` (numbers are modelled as integers; floating-point
values do not occur in the claims) and Python dictionaries as association
lists `List (String × JVal)`.  Python truthiness, `dict.get`, `str()`,
`str.strip()`, `str.split()` and `str.replace(",", " ")` are embedded
explicitly below, and each function of the source file is translated on
top of them, keeping its name.
-/

/-- Parsed JSON values, as produced by `resp.json()` in the source. -/
inductive JVal where
  | jnull : JVal
  | jbool : Bool → JVal
  | jnum : Int → JVal
  | jstr : String → JVal
  | jarr : List JVal → JVal
  | jobj : List (String × JVal) → JVal

/-- Python truthiness of a JSON value (`bool(v)`). -/
def truthy : JVal → Bool
  | .jnull => false
  | .jbool b => b
  | .jnum n => n != 0
  | .jstr s => !s.isEmpty
  | .jarr xs => !xs.isEmpty
  | .jobj fs => !fs.isEmpty

/-- Python `a or b` on JSON values: `b` when `a` is falsy, else `a`. -/
def pyOr (a b : JVal) : JVal := if truthy a then a else b

/-- Association-list lookup used to model Python `dict` access. -/
def jlookup : List (String × JVal) → String → Option JVal
  | [], _ => none
  | (k, v) :: rest, key => if k = key then some v else jlookup rest key

/-- Python `d.get(key)`: the stored value, or `None` when the key is absent.
A stored JSON `null` and an absent key are both returned as `jnull`,
exactly as `dict.get` returns `None` in both cases. -/
def pyGet (fs : List (String × JVal)) (key : String) : JVal :=
  (jlookup fs key).getD .jnull

mutual
/-- Python `repr()` of a parsed JSON value (quote escaping inside string
reprs is not modelled; no claim depends on it). -/
def pyRepr : JVal → String
  | .jnull => "None"
  | .jbool b => cond b "True" "False"
  | .jnum n => toString n
  | .jstr s => "\x27" ++ s ++ "\x27"
  | .jarr xs => "[" ++ pyReprList xs ++ "]"
  | .jobj fs => "\x7b" ++ pyReprFields fs ++ "\x7d"

/-- Comma-separated reprs of a list of values. -/
def pyReprList : List JVal → String
  | [] => ""
  | [v] => pyRepr v
  | v :: w :: rest => pyRepr v ++ ", " ++ pyReprList (w :: rest)

/-- Comma-separated reprs of a dict's key/value pairs. -/
def pyReprFields : List (String × JVal) → String
  | [] => ""
  | [(k, v)] => "\x27" ++ k ++ "\x27: " ++ pyRepr v
  | (k, v) :: w :: rest => "\x27" ++ k ++ "\x27: " ++ pyRepr v ++ ", " ++ pyReprFields (w :: rest)
end

/-- Python `str()` of a parsed JSON value. -/
def pyStr : JVal → String
  | .jnull => "None"
  | .jbool b => cond b "True" "False"
  | .jnum n => toString n
  | .jstr s => s
  | .jarr xs => "[" ++ pyReprList xs ++ "]"
  | .jobj fs => "\x7b" ++ pyReprFields fs ++ "\x7d"

/-- The whitespace class of Python `str.split` / `str.strip`. -/
def pyIsSpace (c : Char) : Bool :=
  c = ' ' || c = '\t' || c = '\n' || c = '\r' || c = '\x0b' || c = '\x0c'

/-- Python `s.strip()`: drop leading and trailing whitespace. -/
def pyStrip (s : String) : String :=
  String.mk (((s.toList.dropWhile pyIsSpace).reverse.dropWhile pyIsSpace).reverse)

/-- Python `s.lower()` restricted to the ASCII range (the only characters
the handler's view-type comparison can involve). -/
def pyLower (s : String) : String := String.mk (s.toList.map Char.toLower)

/-- Tokeniser: splits a character list at characters satisfying `p`,
treating consecutive delimiters as one separator and producing no empty
tokens.  `acc` holds the (reversed) characters of the token in progress. -/
def tokensAux (p : Char → Bool) : List Char → List Char → List String
  | [], acc => if acc.isEmpty then [] else [String.mk acc.reverse]
  | c :: cs, acc =>
    if p c then
      if acc.isEmpty then tokensAux p cs []
      else String.mk acc.reverse :: tokensAux p cs []
    else tokensAux p cs (c :: acc)

/-- Python `s.split()` (no argument): split on runs of whitespace. -/
def pySplitWhitespace (s : String) : List String :=
  tokensAux pyIsSpace s.toList []

/-- Python `s.replace(",", " ")`: every comma becomes a space. -/
def commaToSpace (s : String) : String :=
  String.mk (s.toList.map (fun c => if c = ',' then ' ' else c))

/-- The list comprehension
`[h.strip() for h in s.replace(",", " ").split() if h.strip()]`
from `extract_hostnames` in the source. -/
def pySplitClean (s : String) : List String :=
  ((pySplitWhitespace (commaToSpace s)).filter
    (fun h => !(pyStrip h).isEmpty)).map pyStrip

/-- Source `truncate_text` (always called with the default
`max_length = 25`): non-strings become `""`; strings of length at most 25
pass through; longer strings are cut to the first `25 - 3` characters
followed by `"..."`. -/
def truncate_text (value : JVal) : String :=
  match value with
  | .jstr s =>
    if s.length ≤ 25 then s
    else String.mk (s.toList.take (25 - 3)) ++ "..."
  | _ => ""

/-- Source inner function `extract_hostnames` of `normalize_hostnames`:
resolve the host names held in a container's `"nameServers"` sub-object. -/
def extract_hostnames (container : List (String × JVal)) : List String :=
  if container.isEmpty then []
  else
    match pyOr (pyGet container "nameServers") (.jobj []) with
    | .jobj fields =>
      match pyGet fields "hostNames" with
      | .jarr hs => hs.map pyStr
      | .jstr s => pySplitClean s
      | _ =>
        match pyGet fields "rawText" with
        | .jstr raw => pySplitClean raw
        | _ => []
    | _ => []

/-- Source `normalize_hostnames`: primary record first, then the
`"registryData"` fallback (Python coerces a falsy or non-dict
`registryData` to an empty extraction, embedded by the `match`), then
truncate each name and join with `", "`. -/
def normalize_hostnames (record : List (String × JVal)) : String :=
  let hostnames := extract_hostnames record
  let hostnames :=
    if hostnames.isEmpty then
      match pyOr (pyGet record "registryData") (.jobj []) with
      | .jobj f => extract_hostnames f
      | _ => []
    else hostnames
  if hostnames.isEmpty then ""
  else String.intercalate ", " (hostnames.map (fun h => truncate_text (.jstr h)))

/-- Output shape of `extract_domain_information`: a Python dict literal
with exactly these six keys, embedded as a structure (all keys always
present). -/
structure DomainInfo where
  domainName : JVal
  registrar : JVal
  registrationDate : JVal
  expirationDate : JVal
  estimatedDomainAge : JVal
  hostnames : String

/-- Output shape of `extract_contact_information`. -/
structure ContactInfo where
  registrantName : JVal
  technicalContactName : JVal
  administrativeContactName : JVal
  contactEmail : JVal

/-- Lines 127-129 of the source:
`registry_data = record.get("registryData") or {}` followed by the
`isinstance(registry_data, dict)` guard.  Every non-dict value (truthy or
falsy) ends up as `{}`, and a falsy dict already is `{}`, so the result is
the fields of a dict value and `[]` otherwise. -/
def registryDataOf (record : List (String × JVal)) : List (String × JVal) :=
  match pyGet record "registryData" with
  | .jobj f => f
  | _ => []

/-- Source inner function `pick` of `extract_domain_information`: first
truthy value among `record[k]` then `registry_data[k]` for each key in
turn, else Python `None`. -/
def pick (record registry_data : List (String × JVal)) : List String → JVal
  | [] => .jnull
  | k :: rest =>
    let v := pyGet record k
    if truthy v then v
    else
      let v2 := pyGet registry_data k
      if truthy v2 then v2
      else pick record registry_data rest

/-- The middle registrar tier of the source:
`(record.get("registrar") or {}).get("name") if isinstance(record.get("registrar"), dict) else None`. -/
def registrarNameTier (record : List (String × JVal)) : JVal :=
  match pyGet record "registrar" with
  | .jobj f => pyGet f "name"
  | _ => .jnull

/-- Source `extract_domain_information`. -/
def extract_domain_information (record : List (String × JVal)) : DomainInfo :=
  let registry_data := registryDataOf record
  { domainName := pyOr (pick record registry_data ["domainName"]) (.jstr "")
    registrar := pyOr (pyOr (pick record registry_data ["registrarName"])
                           (registrarNameTier record)) (.jstr "")
    registrationDate := pyOr (pick record registry_data ["createdDate"]) (.jstr "")
    expirationDate := pyOr (pick record registry_data ["expiresDate"]) (.jstr "")
    estimatedDomainAge := pick record registry_data ["estimatedDomainAge"]
    hostnames := normalize_hostnames record }

/-- The pattern `record.get(k) if isinstance(record.get(k), dict) else {}`
used for the three contact sub-objects. -/
def dictAt (record : List (String × JVal)) (key : String) : List (String × JVal) :=
  match pyGet record key with
  | .jobj f => f
  | _ => []

/-- Source `extract_contact_information`. -/
def extract_contact_information (record : List (String × JVal)) : ContactInfo :=
  let registrant := dictAt record "registrant"
  let tech := dictAt record "technicalContact"
  let admin := dictAt record "administrativeContact"
  { registrantName := pyOr (pyGet registrant "name") (.jstr "")
    technicalContactName := pyOr (pyGet tech "name") (.jstr "")
    administrativeContactName := pyOr (pyGet admin "name") (.jstr "")
    contactEmail := pyOr (pyOr (pyGet record "contactEmail")
                               (pyGet registrant "email")) (.jstr "") }


/-! ### Lookup orchestrator (`whois_lookup`)

The Flask handler is embedded as a pure function of the inbound request,
the configured API key, and the outcome of the single upstream HTTP call.
Database logging (`log_lookup`) is I/O whose arguments alone matter to the
claims; each call is recorded as a `LogEntry`. -/

/-- Inbound request: `request.get_json(silent=True)` result (`none` for an
absent or unparsable body, which Flask reports as `None`) and the query
parameters. -/
structure Request where
  payload : Option JVal
  args : List (String × String)

/-- Query-string lookup, `request.args.get(key)`. -/
def argsGet : List (String × String) → String → Option String
  | [], _ => none
  | (k, v) :: rest, key => if k = key then some v else argsGet rest key

/-- Outcome of `requests.get(WHOIS_API_URL, ...)`: a timeout exception,
some other request exception, or a response with a status code, a body
text, and the JSON parse of the body (`none` when `resp.json()` raises). -/
inductive Upstream where
  | timeout : Upstream
  | failure : String → Upstream
  | response : Nat → String → Option JVal → Upstream

/-- One call to `log_lookup(domain, info_type, http_status, success,
registrar)`; `registrar` is `jnull` when the Python default `None` is
used. -/
structure LogEntry where
  domain : String
  info_type : String
  http_status : Nat
  success : Bool
  registrar : JVal

/-- The handler's observable result: HTTP status, JSON body, and the
sequence of `log_lookup` calls made. -/
structure HandlerResult where
  status : Nat
  body : JVal
  logs : List LogEntry

/-- Line 332, `payload = request.get_json(silent=True) or {}`, together
with the strictness of the later `payload.get(...)` calls: a truthy
non-dict body makes `payload.get` raise `AttributeError` (caught by the
handler's generic `except`). -/
def payloadDict : Option JVal → Except String (List (String × JVal))
  | none => .ok []
  | some v =>
    if truthy v then
      match v with
      | .jobj f => .ok f
      | _ => .error "AttributeError: get"
    else .ok []

/-- `(payload.get(key) or request.args.get(key) or "")` followed by
`.strip()`-strictness: a truthy non-string payload value makes `.strip()`
raise `AttributeError`. -/
def paramValue (pd : List (String × JVal)) (args : List (String × String))
    (key : String) : Except String String :=
  let pv := pyGet pd key
  if truthy pv then
    match pv with
    | .jstr s => .ok s
    | _ => .error "AttributeError: strip"
  else .ok ((argsGet args key).getD "")

/-- Python `s[:n]`: the first `n` characters. -/
def pyTake (s : String) (n : Nat) : String :=
  String.mk (s.toList.take n)

/-- The generic `except Exception` branch of the handler: respond 500 and
log one attempt with empty domain and view type. -/
def internalResult (msg : String) : HandlerResult :=
  { status := 500
    body := .jobj [("error", .jstr "Unexpected server error"), ("details", .jstr msg)]
    logs := [{ domain := "", info_type := "", http_status := 500, success := false,
               registrar := .jnull }] }

/-- The `data` field of a successful domain-view response (the Python dict
returned by `extract_domain_information`, serialised). -/
def domainInfoToJVal (d : DomainInfo) : JVal :=
  .jobj [("domainName", d.domainName), ("registrar", d.registrar),
         ("registrationDate", d.registrationDate), ("expirationDate", d.expirationDate),
         ("estimatedDomainAge", d.estimatedDomainAge), ("hostnames", .jstr d.hostnames)]

/-- The `data` field of a successful contact-view response. -/
def contactInfoToJVal (c : ContactInfo) : JVal :=
  .jobj [("registrantName", c.registrantName),
         ("technicalContactName", c.technicalContactName),
         ("administrativeContactName", c.administrativeContactName),
         ("contactEmail", c.contactEmail)]

/-- The post-validation section of the source handler (lines 350-405):
the upstream call, its classification, extraction, logging and the
response.  `domain` and `info_type` are the already-validated inputs. -/
def afterValidation (domain info_type : String) (args : List (String × String))
    (upstream : Upstream) : HandlerResult :=
  match upstream with
  | .timeout =>
    { status := 504
      body := .jobj [("error", .jstr "Upstream whois request timed out")]
      logs := [{ domain := (argsGet args "domain").getD ""
                 info_type := (argsGet args "type").getD ""
                 http_status := 504, success := false, registrar := .jnull }] }
  | .failure msg => internalResult msg
  | .response status text body =>
    if status ≠ 200 then
      { status := 502
        body := .jobj [("error", .jstr "Upstream whois service error"),
                       ("status", .jnum (Int.ofNat status)),
                       ("details", .jstr (pyTake text 300))]
        logs := [{ domain := domain, info_type := info_type, http_status := status,
                   success := false, registrar := .jnull }] }
    else
      match body with
      | none => internalResult "json decode failed"
      | some data =>
        match data with
        | .jobj df =>
          let record := pyGet df "WhoisRecord"
          if truthy record then
            match record with
            | .jobj rf =>
              if info_type = "domain" then
                let result := extract_domain_information rf
                { status := 200
                  body := .jobj [("domain", .jstr domain), ("type", .jstr info_type),
                                 ("data", domainInfoToJVal result)]
                  logs := [{ domain := domain, info_type := info_type, http_status := 200,
                             success := true, registrar := result.registrar }] }
              else
                let result := extract_contact_information rf
                { status := 200
                  body := .jobj [("domain", .jstr domain), ("type", .jstr info_type),
                                 ("data", contactInfoToJVal result)]
                  logs := [{ domain := domain, info_type := info_type, http_status := 200,
                             success := true, registrar := registrarNameTier rf }] }
            | _ => internalResult "AttributeError: get"
          else
            { status := 404
              body := .jobj [("error", .jstr "Whois record not found for domain")]
              logs := [{ domain := domain, info_type := info_type, http_status := 404,
                         success := false, registrar := .jnull }] }
        | _ => internalResult "AttributeError: get"

/-- Source `whois_lookup` (the `/api/whois` handler), lines 330-405:
parameter resolution, validation, the credential check, then the
post-validation section. -/
def whois_lookup (req : Request) (api_key : Option String)
    (upstream : Upstream) : HandlerResult :=
  match payloadDict req.payload with
  | .error e => internalResult e
  | .ok pd =>
  match paramValue pd req.args "domain" with
  | .error e => internalResult e
  | .ok d0 =>
  match paramValue pd req.args "type" with
  | .error e => internalResult e
  | .ok t0 =>
  let domain := pyStrip d0
  let info_type := pyLower (pyStrip t0)
  if domain = "" then
    { status := 400, body := .jobj [("error", .jstr "Missing \x27domain\x27")], logs := [] }
  else if info_type ≠ "domain" ∧ info_type ≠ "contact" then
    { status := 400,
      body := .jobj [("error", .jstr "Invalid \x27type\x27. Use \x27domain\x27 or \x27contact\x27")],
      logs := [] }
  else if api_key.getD "" = "" then
    { status := 500,
      body := .jobj [("error", .jstr "Server not configured with WHOIS_API_KEY")],
      logs := [] }
  else afterValidation domain info_type req.args upstream


/-- Field access on a JSON-object response body (used to state claims
about individual fields of the handler's response). -/
def bodyField (r : HandlerResult) (key : String) : Option JVal :=
  match r.body with
  | .jobj f => jlookup f key
  | _ => none

/-! ### Spec-side models

These definitions follow the wording of the specification (not the
source); the claim theorems compare them with the source embedding. -/

/-- Modelled from the spec: "split on commas and/or whitespace with
consecutive delimiters treated as one separator, empty fragments
discarded, and each fragment trimmed". -/
def specSplit (s : String) : List String :=
  (tokensAux (fun c => c = ',' || pyIsSpace c) s.toList []).map pyStrip

/-- Modelled from the spec: the host-name resolution inside the
`"nameServers"` sub-object, in priority order (sequence, single string,
raw text, nothing). -/
def specExtractHostnames (container : List (String × JVal)) : List String :=
  match jlookup container "nameServers" with
  | some (.jobj fields) =>
    (match jlookup fields "hostNames" with
     | some (.jarr hs) => hs.map pyStr
     | some (.jstr s) => specSplit s
     | _ =>
       match jlookup fields "rawText" with
       | some (.jstr raw) => specSplit raw
       | _ => [])
  | _ => []

/-- Modelled from the spec: primary extraction first; if it yields zero
host names retry against `"registryData"` when present and itself an
object; truncate and join with `", "` in extraction order (joining the
empty list gives the empty string). -/
def specNormalizeHostnames (record : List (String × JVal)) : String :=
  let primary := specExtractHostnames record
  let names :=
    if primary.isEmpty then
      match jlookup record "registryData" with
      | some (.jobj f) => specExtractHostnames f
      | _ => []
    else primary
  String.intercalate ", " (names.map (fun h => truncate_text (.jstr h)))

/-- Modelled from the spec: first-present-wins over a list of candidate
sources, where "present" means truthy. -/
def specFirstPresent : List JVal → JVal
  | [] => .jnull
  | v :: rest => if truthy v then v else specFirstPresent rest

/-- Modelled from the spec: the fields of `"registryData"` when it is
present and an object, nothing otherwise. -/
def specRegistryFields (record : List (String × JVal)) : List (String × JVal) :=
  match jlookup record "registryData" with
  | some (.jobj f) => f
  | _ => []

/-- Modelled from the spec: a two-tier first-present-wins field (primary
record, then `"registryData"`) defaulting to the empty string. -/
def specDomainField (record : List (String × JVal)) (key : String) : JVal :=
  let v := specFirstPresent [pyGet record key, pyGet (specRegistryFields record) key]
  if truthy v then v else .jstr ""

/-- Modelled from the spec: the registrar with its extra third tier (the
primary record's `"registrar"` object's `"name"` field when the registrar
sub-object is an object), empty string when every tier fails. -/
def specRegistrar (record : List (String × JVal)) : JVal :=
  let third :=
    match pyGet record "registrar" with
    | .jobj f => pyGet f "name"
    | _ => .jnull
  let v := specFirstPresent
    [pyGet record "registrarName", pyGet (specRegistryFields record) "registrarName", third]
  if truthy v then v else .jstr ""

/-- Modelled from the spec: `estimatedDomainAge` is passed through without
coercion; absent on both tiers means Python `None`. -/
def specEstimatedAge (record : List (String × JVal)) : JVal :=
  specFirstPresent
    [pyGet record "estimatedDomainAge", pyGet (specRegistryFields record) "estimatedDomainAge"]

/-- Modelled from the spec: a contact name is the `"name"` field of the
corresponding sub-object when that sub-object is present and an object,
and the empty string otherwise (absent, wrong type, or name
absent/falsy). -/
def specContactName (record : List (String × JVal)) (key : String) : JVal :=
  match jlookup record key with
  | some (.jobj f) => if truthy (pyGet f "name") then pyGet f "name" else .jstr ""
  | _ => .jstr ""

/-- Modelled from the spec: `contactEmail` is the first truthy of the
record's top-level `"contactEmail"` field then the registrant sub-object's
`"email"` field, defaulting to the empty string. -/
def specContactEmail (record : List (String × JVal)) : JVal :=
  let registrantEmail :=
    match jlookup record "registrant" with
    | some (.jobj f) => pyGet f "email"
    | _ => .jnull
  let v := specFirstPresent [pyGet record "contactEmail", registrantEmail]
  if truthy v then v else .jstr ""

/-! ### Supporting lemmas -/

/-- `toList` of `String.mk` is the underlying character list. -/
theorem toList_mk (l : List Char) : (String.mk l).toList = l := rfl

/-- `String.mk` of `toList` is the string itself. -/
theorem mk_toList (s : String) : String.mk s.toList = s := rfl

/-- `String.mk` of a nonempty character list is a nonempty string. -/
theorem mk_ne_empty {l : List Char} (h : l ≠ []) : String.mk l ≠ "" := by
  intro hs
  exact h (congrArg String.toList hs)

/-- Replacing commas by spaces and splitting on whitespace is the same as
splitting on the comma-or-whitespace delimiter class. -/
theorem tokensAux_comma (l acc) :
    tokensAux pyIsSpace (l.map (fun c => if c = ',' then ' ' else c)) acc
      = tokensAux (fun c => c = ',' || pyIsSpace c) l acc := by
  induction l generalizing acc with
  | nil => rfl
  | cons c cs ih =>
    simp only [List.map_cons]
    by_cases hc : c = ','
    · subst hc
      have h1 : pyIsSpace ' ' = true := by decide
      simp [tokensAux, h1, ih]
    · by_cases hs : pyIsSpace c
      · simp [tokensAux, hc, hs, ih]
      · have h1 : pyIsSpace c = false := by simpa using hs
        simp [tokensAux, hc, h1, ih]

/-- Every token produced by the tokeniser (from an in-progress token whose
characters are all non-delimiters) is nonempty and contains no delimiter
character. -/
theorem tokensAux_tokens (p : Char → Bool) (l : List Char) :
    ∀ acc, (∀ c ∈ acc, p c = false) →
      ∀ t ∈ tokensAux p l acc, t ≠ "" ∧ ∀ c ∈ t.toList, p c = false := by
  induction l with
  | nil =>
    intro acc hacc t ht
    by_cases ha : acc.isEmpty
    · simp [tokensAux, ha] at ht
    · simp [tokensAux, ha] at ht
      subst ht
      refine ⟨mk_ne_empty ?_, ?_⟩
      · simp only [ne_eq, List.reverse_eq_nil_iff]
        simpa [List.isEmpty_iff] using ha
      · intro c hc
        exact hacc c (by simpa using hc)
  | cons d ds ih =>
    intro acc hacc t ht
    by_cases hd : p d
    · rw [tokensAux] at ht
      rw [if_pos hd] at ht
      by_cases ha : acc.isEmpty
      · rw [if_pos ha] at ht
        exact ih [] (by simp) t ht
      · rw [if_neg ha] at ht
        rcases List.mem_cons.mp ht with h | h
        · subst h
          refine ⟨mk_ne_empty ?_, ?_⟩
          · simp only [ne_eq, List.reverse_eq_nil_iff]
            simpa [List.isEmpty_iff] using ha
          · intro c hc
            exact hacc c (by simpa using hc)
        · exact ih [] (by simp) t h
    · rw [tokensAux] at ht
      rw [if_neg hd] at ht
      refine ih (d :: acc) ?_ t ht
      intro c hc
      rcases List.mem_cons.mp hc with h | h
      · subst h; simpa using hd
      · exact hacc c h

/-- `dropWhile` is the identity on a list none of whose elements satisfy
the predicate. -/
theorem dropWhile_eq_self_of_none (p : Char → Bool) (l : List Char)
    (h : ∀ c ∈ l, p c = false) : l.dropWhile p = l := by
  cases l with
  | nil => rfl
  | cons c cs => simp [List.dropWhile_cons, h c (by simp)]

/-- Stripping a string with no whitespace characters is the identity. -/
theorem pyStrip_eq_self {s : String} (h : ∀ c ∈ s.toList, pyIsSpace c = false) :
    pyStrip s = s := by
  unfold pyStrip
  rw [dropWhile_eq_self_of_none pyIsSpace s.toList h,
      dropWhile_eq_self_of_none pyIsSpace s.toList.reverse
        (fun c hc => h c (List.mem_reverse.mp hc)),
      List.reverse_reverse]
  exact mk_toList s

/-- The comprehension in `extract_hostnames` equals the spec's split rule:
comma-replacement plus whitespace split equals splitting on the
comma-or-whitespace class, and the filter and trims are no-ops on its
tokens. -/
theorem pySplitClean_eq_specSplit (s : String) : pySplitClean s = specSplit s := by
  unfold pySplitClean specSplit pySplitWhitespace commaToSpace
  rw [toList_mk, tokensAux_comma]
  congr 1
  apply List.filter_eq_self.mpr
  intro t ht
  have h := tokensAux_tokens (fun c => c = ',' || pyIsSpace c) s.toList [] (by simp) t ht
  have hstrip : pyStrip t = t := by
    apply pyStrip_eq_self
    intro c hc
    have := h.2 c hc
    simp only [Bool.or_eq_false_iff] at this
    exact this.2
  rw [hstrip]
  have hie : t.isEmpty = false := by
    rcases Bool.eq_false_or_eq_true t.isEmpty with hb | hb
    · exact absurd ((String.isEmpty_iff t).mp hb) h.1
    · exact hb
  simp [hie]

/-- The raw-text branch of the extraction agrees between the source
embedding (over `pyGet`) and the spec model (over `jlookup`). -/
theorem rawText_branch_eq (fields : List (String × JVal)) :
    (match pyGet fields "rawText" with
     | .jstr raw => pySplitClean raw
     | _ => ([] : List String)) =
    (match jlookup fields "rawText" with
     | some (.jstr raw) => specSplit raw
     | _ => ([] : List String)) := by
  unfold pyGet
  cases h : jlookup fields "rawText" with
  | none => rfl
  | some w => cases w <;> simp [pySplitClean_eq_specSplit]

/-- The host-name branch of the extraction agrees between the source
embedding and the spec model. -/
theorem hostNames_branch_eq (fields : List (String × JVal)) :
    (match pyGet fields "hostNames" with
     | .jarr hs => hs.map pyStr
     | .jstr s => pySplitClean s
     | _ =>
       match pyGet fields "rawText" with
       | .jstr raw => pySplitClean raw
       | _ => ([] : List String)) =
    (match jlookup fields "hostNames" with
     | some (.jarr hs) => hs.map pyStr
     | some (.jstr s) => specSplit s
     | _ =>
       match jlookup fields "rawText" with
       | some (.jstr raw) => specSplit raw
       | _ => ([] : List String)) := by
  have hraw := rawText_branch_eq fields
  unfold pyGet
  cases h : jlookup fields "hostNames" with
  | none => simpa [pyGet, pySplitClean_eq_specSplit] using hraw
  | some w =>
    cases w <;> simp [pySplitClean_eq_specSplit] <;>
      simpa [pyGet, pySplitClean_eq_specSplit] using hraw

/-- The source's `extract_hostnames` computes exactly the spec's
host-name resolution. -/
theorem extract_hostnames_eq_spec (container : List (String × JVal)) :
    extract_hostnames container = specExtractHostnames container := by
  by_cases hc : container.isEmpty = true
  · have h0 : container = [] := by simpa [List.isEmpty_iff] using hc
    subst h0
    rfl
  · unfold extract_hostnames specExtractHostnames
    rw [if_neg hc]
    cases hns : jlookup container "nameServers" with
    | none => simp [pyGet, jlookup, hns, pyOr, truthy]
    | some v =>
      cases v with
      | jobj fields =>
        by_cases hf : fields.isEmpty = true
        · have h0 : fields = [] := by simpa [List.isEmpty_iff] using hf
          subst h0
          simp [pyGet, jlookup, hns, pyOr, truthy]
        · have hfe := hostNames_branch_eq fields
          simp only [pyGet, hns, Option.getD_some, pyOr, truthy, hf]
          simpa [pyGet] using hfe
      | jnull => simp [pyGet, jlookup, hns, pyOr, truthy]
      | jbool b => cases b <;> simp [pyGet, jlookup, hns, pyOr, truthy]
      | jnum n =>
        by_cases hn : n = 0
        · subst hn; simp [pyGet, jlookup, hns, pyOr, truthy]
        · simp [pyGet, jlookup, hns, pyOr, truthy, hn]
      | jstr s =>
        by_cases hs : s.isEmpty = true
        · have h0 : s = "" := (String.isEmpty_iff s).mp hs
          subst h0
          simp +decide [pyGet, jlookup, hns, pyOr, truthy]
        · simp [pyGet, jlookup, hns, pyOr, truthy, hs]
      | jarr xs =>
        by_cases hx : xs.isEmpty = true
        · have h0 : xs = [] := by simpa [List.isEmpty_iff] using hx
          subst h0
          simp [pyGet, jlookup, hns, pyOr, truthy]
        · simp [pyGet, jlookup, hns, pyOr, truthy, hx]

/-- The fallback container resolution of `normalize_hostnames`
(`record.get("registryData") or {}` plus the `isinstance` guard) equals
the spec's "present and itself an object" condition. -/
theorem fallback_eq (record : List (String × JVal)) :
    (match pyOr (pyGet record "registryData") (.jobj []) with
     | .jobj f => specExtractHostnames f
     | _ => ([] : List String)) =
    (match jlookup record "registryData" with
     | some (.jobj f) => specExtractHostnames f
     | _ => ([] : List String)) := by
  cases hrd : jlookup record "registryData" with
  | none => simp [pyGet, hrd, pyOr, truthy, specExtractHostnames, jlookup]
  | some v =>
    cases v with
    | jobj f =>
      by_cases hf : f.isEmpty = true
      · have h0 : f = [] := by simpa [List.isEmpty_iff] using hf
        subst h0
        simp [pyGet, hrd, pyOr, truthy, specExtractHostnames, jlookup]
      · simp [pyGet, hrd, pyOr, truthy, hf]
    | jnull => simp [pyGet, hrd, pyOr, truthy, specExtractHostnames, jlookup]
    | jbool b =>
      cases b <;> simp [pyGet, hrd, pyOr, truthy, specExtractHostnames, jlookup]
    | jnum n =>
      by_cases hn : n = 0
      · subst hn
        simp [pyGet, hrd, pyOr, truthy, specExtractHostnames, jlookup]
      · simp [pyGet, hrd, pyOr, truthy, hn]
    | jstr s =>
      by_cases hs : s.isEmpty = true
      · have h0 : s = "" := (String.isEmpty_iff s).mp hs
        subst h0
        simp +decide [pyGet, hrd, pyOr, truthy, specExtractHostnames, jlookup]
      · simp [pyGet, hrd, pyOr, truthy, hs]
    | jarr xs =>
      by_cases hx : xs.isEmpty = true
      · have h0 : xs = [] := by simpa [List.isEmpty_iff] using hx
        subst h0
        simp [pyGet, hrd, pyOr, truthy, specExtractHostnames, jlookup]
      · simp [pyGet, hrd, pyOr, truthy, hx]

/-- Guarding the join by emptiness is redundant: joining no names already
gives the empty string. -/
theorem join_empty_guard (l : List String) :
    (if l.isEmpty then ""
     else String.intercalate ", " (l.map (fun h => truncate_text (.jstr h))))
      = String.intercalate ", " (l.map (fun h => truncate_text (.jstr h))) := by
  by_cases h : l.isEmpty = true
  · have h0 : l = [] := by simpa [List.isEmpty_iff] using h
    subst h0
    rfl
  · rw [if_neg h]

/-- The source's `normalize_hostnames` computes exactly the spec's
hostname normalisation. -/
theorem normalize_hostnames_eq_spec (record : List (String × JVal)) :
    normalize_hostnames record = specNormalizeHostnames record := by
  unfold normalize_hostnames specNormalizeHostnames
  simp only [extract_hostnames_eq_spec, fallback_eq, join_empty_guard]

/-- The source's registry-data coercion equals the spec's "present and an
object" field set. -/
theorem registryDataOf_eq_spec (record : List (String × JVal)) :
    registryDataOf record = specRegistryFields record := by
  unfold registryDataOf specRegistryFields pyGet
  cases h : jlookup record "registryData" with
  | none => rfl
  | some v => cases v <;> rfl

/-- `pick` over a single key is first-present-wins over the two tiers. -/
theorem pick_single (record g : List (String × JVal)) (k : String) :
    pick record g [k] = specFirstPresent [pyGet record k, pyGet g k] := by
  simp only [pick, specFirstPresent]

/-- Defaulting a two-candidate first-present-wins with `or ""` equals the
spec's empty-string default. -/
theorem or2_default (a b : JVal) :
    pyOr (specFirstPresent [a, b]) (.jstr "")
      = (if truthy (specFirstPresent [a, b]) then specFirstPresent [a, b] else .jstr "") := by
  rfl

/-- The source's registrar chain (`pick(...) or tier3 or ""`) equals the
spec's three-tier first-present-wins with empty-string default. -/
theorem or3_registrar (a b c : JVal) :
    pyOr (pyOr (specFirstPresent [a, b]) c) (.jstr "")
      = (if truthy (specFirstPresent [a, b, c]) then specFirstPresent [a, b, c] else .jstr "") := by
  have hnull : truthy .jnull = false := rfl
  by_cases ha : truthy a = true
  · simp [pyOr, specFirstPresent, ha]
  · by_cases hb : truthy b = true
    · simp [pyOr, specFirstPresent, ha, hb]
    · by_cases hc : truthy c = true
      · simp [pyOr, specFirstPresent, ha, hb, hc, hnull]
      · simp [pyOr, specFirstPresent, ha, hb, hc, hnull]

/-- A contact name from the source equals the spec's rule. -/
theorem contactName_eq (record : List (String × JVal)) (key : String) :
    pyOr (pyGet (dictAt record key) "name") (.jstr "") = specContactName record key := by
  unfold dictAt specContactName pyOr
  cases h : jlookup record key with
  | none => simp [pyGet, h, jlookup, truthy]
  | some v => cases v <;> simp [pyGet, h, jlookup, truthy]

/-- Key lookup skips a prepended entry with a different key. -/
theorem jlookup_cons_ne {k key : String} (v : JVal) (r : List (String × JVal))
    (h : k ≠ key) : jlookup ((k, v) :: r) key = jlookup r key := by
  simp [jlookup, h]

/-- Chained Python `or` with a final `""` equals the spec's two-candidate
first-present-wins with empty-string default. -/
theorem or2_email (a b : JVal) :
    pyOr (pyOr a b) (.jstr "")
      = (if truthy (specFirstPresent [a, b]) then specFirstPresent [a, b] else .jstr "") := by
  have hnull : truthy .jnull = false := rfl
  by_cases ha : truthy a = true
  · simp [pyOr, specFirstPresent, ha]
  · by_cases hb : truthy b = true <;> simp [pyOr, specFirstPresent, ha, hb, hnull]

/-- The registrant e-mail source term of the code equals the spec's. -/
theorem registrantEmail_eq (record : List (String × JVal)) :
    pyGet (dictAt record "registrant") "email"
      = (match jlookup record "registrant" with
         | some (.jobj f) => pyGet f "email"
         | _ => JVal.jnull) := by
  unfold dictAt
  cases h : jlookup record "registrant" with
  | none => simp [pyGet, h, jlookup]
  | some v => cases v <;> simp [pyGet, h, jlookup]

/-- The contact extractor never consults `"registryData"`: masking that
key with an arbitrary value leaves its output unchanged. -/
theorem contact_ignores_registryData (record : List (String × JVal)) (v : JVal) :
    extract_contact_information (("registryData", v) :: record)
      = extract_contact_information record := by
  unfold extract_contact_information dictAt pyGet
  rw [jlookup_cons_ne v record (by decide : ("registryData" : String) ≠ "registrant"),
      jlookup_cons_ne v record (by decide : ("registryData" : String) ≠ "technicalContact"),
      jlookup_cons_ne v record (by decide : ("registryData" : String) ≠ "administrativeContact"),
      jlookup_cons_ne v record (by decide : ("registryData" : String) ≠ "contactEmail")]

/-! ### Attribute-strict embedding

`container.get(key)` in Python raises `AttributeError` on a non-dict
receiver; the plain embedding above is defined only on dicts, so the
guards of the source are invisible in its types.  The `...E` functions
below re-translate the extractors with every attribute access strict, so
that totality on arbitrary record mappings is a theorem, not a modelling
artefact. -/

/-- Strict `v.get(key)`: `AttributeError` unless `v` is a dict. -/
def jgetE (v : JVal) (key : String) : Except String JVal :=
  match v with
  | .jobj f => .ok (pyGet f key)
  | _ => .error "AttributeError: get"

/-- Python `isinstance(v, dict)`. -/
def isDict : JVal → Bool
  | .jobj _ => true
  | _ => false

/-- Strict `extract_hostnames`. -/
def extract_hostnamesE (container : JVal) : Except String (List String) :=
  if truthy container = false then .ok []
  else
    match jgetE container "nameServers" with
    | .error e => .error e
    | .ok ns0 =>
      match pyOr ns0 (.jobj []) with
      | .jobj fields =>
        match pyGet fields "hostNames" with
        | .jarr hs => .ok (hs.map pyStr)
        | .jstr s => .ok (pySplitClean s)
        | _ =>
          match pyGet fields "rawText" with
          | .jstr raw => .ok (pySplitClean raw)
          | _ => .ok []
      | _ => .ok []

/-- Strict `normalize_hostnames`. -/
def normalize_hostnamesE (record : JVal) : Except String String :=
  match extract_hostnamesE record with
  | .error e => .error e
  | .ok hostnames =>
    match (if hostnames.isEmpty then
             match jgetE record "registryData" with
             | .error e => .error e
             | .ok rd0 =>
               match pyOr rd0 (.jobj []) with
               | .jobj f => extract_hostnamesE (.jobj f)
               | _ => .ok hostnames
           else (.ok hostnames : Except String (List String))) with
    | .error e => .error e
    | .ok hostnames2 =>
      .ok (if hostnames2.isEmpty then ""
           else String.intercalate ", "
                  (hostnames2.map (fun h => truncate_text (.jstr h))))

/-- Strict `pick`. -/
def pickE (record registry_data : JVal) : List String → Except String JVal
  | [] => .ok .jnull
  | k :: rest =>
    match jgetE record k with
    | .error e => .error e
    | .ok v =>
      if truthy v then .ok v
      else
        match jgetE registry_data k with
        | .error e => .error e
        | .ok v2 =>
          if truthy v2 then .ok v2
          else pickE record registry_data rest

/-- Strict middle registrar tier. -/
def registrarNameTierE (record : JVal) : Except String JVal :=
  match jgetE record "registrar" with
  | .error e => .error e
  | .ok robj =>
    if isDict robj then jgetE (pyOr robj (.jobj [])) "name"
    else .ok .jnull

/-- Strict `extract_domain_information`. -/
def extract_domain_informationE (record : JVal) : Except String DomainInfo :=
  match jgetE record "registryData" with
  | .error e => .error e
  | .ok rd0 =>
    let rd1 := pyOr rd0 (.jobj [])
    let registry_data := if isDict rd1 then rd1 else .jobj []
    match pickE record registry_data ["domainName"] with
    | .error e => .error e
    | .ok dn =>
      match pickE record registry_data ["registrarName"] with
      | .error e => .error e
      | .ok r0 =>
        match registrarNameTierE record with
        | .error e => .error e
        | .ok mid =>
          match pickE record registry_data ["createdDate"] with
          | .error e => .error e
          | .ok c0 =>
            match pickE record registry_data ["expiresDate"] with
            | .error e => .error e
            | .ok e0 =>
              match pickE record registry_data ["estimatedDomainAge"] with
              | .error e => .error e
              | .ok age =>
                match normalize_hostnamesE record with
                | .error e => .error e
                | .ok hostnames =>
                  .ok { domainName := pyOr dn (.jstr "")
                        registrar := pyOr (pyOr r0 mid) (.jstr "")
                        registrationDate := pyOr c0 (.jstr "")
                        expirationDate := pyOr e0 (.jstr "")
                        estimatedDomainAge := age
                        hostnames := hostnames }

/-- Strict `extract_contact_information`. -/
def extract_contact_informationE (record : JVal) : Except String ContactInfo :=
  match jgetE record "registrant" with
  | .error e => .error e
  | .ok r0 =>
    let registrant := if isDict r0 then r0 else .jobj []
    match jgetE record "technicalContact" with
    | .error e => .error e
    | .ok t0 =>
      let tech := if isDict t0 then t0 else .jobj []
      match jgetE record "administrativeContact" with
      | .error e => .error e
      | .ok a0 =>
        let admin := if isDict a0 then a0 else .jobj []
        match jgetE registrant "name" with
        | .error e => .error e
        | .ok rn =>
          match jgetE tech "name" with
          | .error e => .error e
          | .ok tn =>
            match jgetE admin "name" with
            | .error e => .error e
            | .ok an =>
              match jgetE record "contactEmail" with
              | .error e => .error e
              | .ok ce =>
                match jgetE registrant "email" with
                | .error e => .error e
                | .ok re =>
                  .ok { registrantName := pyOr rn (.jstr "")
                        technicalContactName := pyOr tn (.jstr "")
                        administrativeContactName := pyOr an (.jstr "")
                        contactEmail := pyOr (pyOr ce re) (.jstr "") }

/-- On a dict, the strict hostname extraction succeeds with the plain
embedding's value. -/
theorem extract_hostnamesE_ok (f : List (String × JVal)) :
    extract_hostnamesE (.jobj f) = .ok (extract_hostnames f) := by
  by_cases hf : f.isEmpty = true
  · have h0 : f = [] := by simpa [List.isEmpty_iff] using hf
    subst h0
    rfl
  · have ht : truthy (JVal.jobj f) = true := by
      simpa [truthy] using hf
    unfold extract_hostnamesE extract_hostnames
    rw [ht, if_neg (by simp), if_neg hf]
    cases hx : pyOr (pyGet f "nameServers") (.jobj []) with
    | jnull => simp [jgetE, hx]
    | jbool b => simp [jgetE, hx]
    | jnum n => simp [jgetE, hx]
    | jstr s => simp [jgetE, hx]
    | jarr xs => simp [jgetE, hx]
    | jobj fields =>
      cases hh : pyGet fields "hostNames" <;>
        cases hr : pyGet fields "rawText" <;>
          simp [jgetE, hx, hh, hr]

/-- On a dict, the strict hostname normalisation succeeds with the plain
embedding's value. -/
theorem normalize_hostnamesE_ok (rf : List (String × JVal)) :
    normalize_hostnamesE (.jobj rf) = .ok (normalize_hostnames rf) := by
  unfold normalize_hostnamesE normalize_hostnames
  rw [extract_hostnamesE_ok]
  by_cases h : (extract_hostnames rf).isEmpty = true
  · have h0 : extract_hostnames rf = [] := by simpa [List.isEmpty_iff] using h
    rw [h0]
    cases hx : pyOr (pyGet rf "registryData") (.jobj []) <;>
      simp [jgetE, hx, extract_hostnamesE_ok]
  · simp [h]

/-- On dicts, the strict `pick` succeeds with the plain `pick`'s value. -/
theorem pickE_ok (rf g : List (String × JVal)) (ks : List String) :
    pickE (.jobj rf) (.jobj g) ks = .ok (pick rf g ks) := by
  induction ks with
  | nil => rfl
  | cons k rest ih =>
    simp only [pickE, pick, jgetE]
    by_cases h1 : truthy (pyGet rf k) = true
    · simp [h1]
    · by_cases h2 : truthy (pyGet g k) = true <;> simp [h1, h2, ih]

/-- On a dict, the strict middle registrar tier succeeds with the plain
embedding's value. -/
theorem registrarNameTierE_ok (rf : List (String × JVal)) :
    registrarNameTierE (.jobj rf) = .ok (registrarNameTier rf) := by
  unfold registrarNameTierE registrarNameTier
  cases hx : pyGet rf "registrar" with
  | jnull => simp [jgetE, hx, isDict]
  | jbool b => simp [jgetE, hx, isDict]
  | jnum n => simp [jgetE, hx, isDict]
  | jstr s => simp [jgetE, hx, isDict]
  | jarr xs => simp [jgetE, hx, isDict]
  | jobj f =>
    by_cases hf : f.isEmpty = true
    · have h0 : f = [] := by simpa [List.isEmpty_iff] using hf
      subst h0
      simp [jgetE, isDict, pyOr, truthy, hx]
    · simp [jgetE, isDict, pyOr, truthy, hf, hx]

/-- The strict registry-data coercion always produces the dict computed by
the plain embedding. -/
theorem registry_dataE_eq (rf : List (String × JVal)) :
    (if isDict (pyOr (pyGet rf "registryData") (.jobj []))
     then pyOr (pyGet rf "registryData") (.jobj []) else .jobj [])
      = .jobj (registryDataOf rf) := by
  unfold registryDataOf
  cases hx : pyGet rf "registryData" with
  | jnull => simp [pyOr, truthy, isDict]
  | jbool b => cases b <;> simp [pyOr, truthy, isDict]
  | jnum n =>
    by_cases hn : n = 0
    · subst hn; simp [pyOr, truthy, isDict]
    · simp [pyOr, truthy, isDict, hn]
  | jstr s =>
    by_cases hs : s.isEmpty = true
    · have h0 : s = "" := (String.isEmpty_iff s).mp hs
      subst h0
      simp +decide [pyOr, truthy, isDict]
    · simp [pyOr, truthy, isDict, hs]
  | jarr xs =>
    by_cases hx2 : xs.isEmpty = true
    · have h0 : xs = [] := by simpa [List.isEmpty_iff] using hx2
      subst h0
      simp [pyOr, truthy, isDict]
    · simp [pyOr, truthy, isDict, hx2]
  | jobj f =>
    by_cases hf : f.isEmpty = true
    · have h0 : f = [] := by simpa [List.isEmpty_iff] using hf
      subst h0
      simp [pyOr, truthy, isDict]
    · simp [pyOr, truthy, isDict, hf]

/-- On a dict record, the strict domain extractor succeeds with the plain
embedding's value: the source's guards cover every malformed
sub-structure. -/
theorem extract_domain_informationE_ok (rf : List (String × JVal)) :
    extract_domain_informationE (.jobj rf) = .ok (extract_domain_information rf) := by
  unfold extract_domain_informationE extract_domain_information
  simp only [jgetE, registry_dataE_eq, pickE_ok, registrarNameTierE_ok,
             normalize_hostnamesE_ok]

/-- On a dict record, the strict contact extractor succeeds with the plain
embedding's value. -/
theorem extract_contact_informationE_ok (rf : List (String × JVal)) :
    extract_contact_informationE (.jobj rf) = .ok (extract_contact_information rf) := by
  unfold extract_contact_informationE extract_contact_information dictAt
  cases h1 : pyGet rf "registrant" <;>
    cases h2 : pyGet rf "technicalContact" <;>
      cases h3 : pyGet rf "administrativeContact" <;>
        simp [jgetE, isDict, h1, h2, h3]

/-- On valid inputs the handler reduces to its post-validation section,
applied to the stripped domain and the stripped, lowercased view type. -/
theorem whois_lookup_valid (req : Request) (api_key : Option String)
    (upstream : Upstream) (pd : List (String × JVal)) (d0 t0 : String)
    (hpd : payloadDict req.payload = .ok pd)
    (hd : paramValue pd req.args "domain" = .ok d0)
    (ht : paramValue pd req.args "type" = .ok t0)
    (hdom : ¬ pyStrip d0 = "")
    (hty : pyLower (pyStrip t0) = "domain" ∨ pyLower (pyStrip t0) = "contact")
    (hkey : ¬ api_key.getD "" = "") :
    whois_lookup req api_key upstream
      = afterValidation (pyStrip d0) (pyLower (pyStrip t0)) req.args upstream := by
  unfold whois_lookup
  simp only [hpd, hd, ht]
  rw [if_neg hdom, if_neg (by rcases hty with h | h <;> simp [h]), if_neg hkey]

/-- A missing (empty after stripping) domain terminates with 400 and no
log entry, before any upstream interaction. -/
theorem whois_lookup_missing_domain (req : Request) (api_key : Option String)
    (upstream : Upstream) (pd : List (String × JVal)) (d0 t0 : String)
    (hpd : payloadDict req.payload = .ok pd)
    (hd : paramValue pd req.args "domain" = .ok d0)
    (ht : paramValue pd req.args "type" = .ok t0)
    (hdom : pyStrip d0 = "") :
    whois_lookup req api_key upstream
      = { status := 400, body := .jobj [("error", .jstr "Missing \x27domain\x27")],
          logs := [] } := by
  unfold whois_lookup
  simp only [hpd, hd, ht]
  rw [if_pos hdom]

/-- An invalid view type terminates with 400 and no log entry. -/
theorem whois_lookup_bad_type (req : Request) (api_key : Option String)
    (upstream : Upstream) (pd : List (String × JVal)) (d0 t0 : String)
    (hpd : payloadDict req.payload = .ok pd)
    (hd : paramValue pd req.args "domain" = .ok d0)
    (ht : paramValue pd req.args "type" = .ok t0)
    (hdom : ¬ pyStrip d0 = "")
    (hty : pyLower (pyStrip t0) ≠ "domain" ∧ pyLower (pyStrip t0) ≠ "contact") :
    whois_lookup req api_key upstream
      = { status := 400,
          body := .jobj [("error",
            .jstr "Invalid \x27type\x27. Use \x27domain\x27 or \x27contact\x27")],
          logs := [] } := by
  unfold whois_lookup
  simp only [hpd, hd, ht]
  rw [if_neg hdom, if_pos hty]

/-- A missing or empty API key terminates with 500 and no log entry,
without an upstream call. -/
theorem whois_lookup_no_key (req : Request) (api_key : Option String)
    (upstream : Upstream) (pd : List (String × JVal)) (d0 t0 : String)
    (hpd : payloadDict req.payload = .ok pd)
    (hd : paramValue pd req.args "domain" = .ok d0)
    (ht : paramValue pd req.args "type" = .ok t0)
    (hdom : ¬ pyStrip d0 = "")
    (hty : pyLower (pyStrip t0) = "domain" ∨ pyLower (pyStrip t0) = "contact")
    (hkey : api_key.getD "" = "") :
    whois_lookup req api_key upstream
      = { status := 500,
          body := .jobj [("error", .jstr "Server not configured with WHOIS_API_KEY")],
          logs := [] } := by
  unfold whois_lookup
  simp only [hpd, hd, ht]
  rw [if_neg hdom, if_neg (by rcases hty with h | h <;> simp [h]), if_pos hkey]

/-- A truthy non-dict request body makes the handler take its generic
exception path. -/
theorem whois_lookup_payload_err (req : Request) (api_key : Option String)
    (upstream : Upstream) (e : String)
    (hpd : payloadDict req.payload = .error e) :
    whois_lookup req api_key upstream = internalResult e := by
  unfold whois_lookup
  simp only [hpd]

/-- A truthy non-string domain parameter makes the handler take its
generic exception path. -/
theorem whois_lookup_domain_err (req : Request) (api_key : Option String)
    (upstream : Upstream) (pd : List (String × JVal)) (e : String)
    (hpd : payloadDict req.payload = .ok pd)
    (hd : paramValue pd req.args "domain" = .error e) :
    whois_lookup req api_key upstream = internalResult e := by
  unfold whois_lookup
  simp only [hpd, hd]

/-- A truthy non-string type parameter makes the handler take its generic
exception path. -/
theorem whois_lookup_type_err (req : Request) (api_key : Option String)
    (upstream : Upstream) (pd : List (String × JVal)) (d0 : String) (e : String)
    (hpd : payloadDict req.payload = .ok pd)
    (hd : paramValue pd req.args "domain" = .ok d0)
    (ht : paramValue pd req.args "type" = .error e) :
    whois_lookup req api_key upstream = internalResult e := by
  unfold whois_lookup
  simp only [hpd, hd, ht]

/-- Every post-validation outcome logs exactly one attempt. -/
theorem afterValidation_logs (d t : String) (args : List (String × String))
    (u : Upstream) : (afterValidation d t args u).logs.length = 1 := by
  cases u with
  | timeout => rfl
  | failure msg => rfl
  | response status text body =>
    simp only [afterValidation]
    split
    · rfl
    · cases body with
      | none => rfl
      | some data =>
        cases data <;> try rfl
        case jobj df =>
          simp only []
          split
          · split <;> try rfl
            split <;> rfl
          · rfl

/-- A non-200 upstream status yields the 502 outcome, echoing the
upstream's status, with a ≤300-character excerpt and one failed log entry
carrying the upstream's actual status. -/
theorem afterValidation_upstream_error (d t : String) (args : List (String × String))
    (status : Nat) (text : String) (body : Option JVal) (h : status ≠ 200) :
    afterValidation d t args (.response status text body)
      = { status := 502
          body := .jobj [("error", .jstr "Upstream whois service error"),
                         ("status", .jnum (Int.ofNat status)),
                         ("details", .jstr (pyTake text 300))]
          logs := [{ domain := d, info_type := t, http_status := status,
                     success := false, registrar := .jnull }] } := by
  simp only [afterValidation]
  rw [if_pos h]

/-- A 200 upstream response whose `"WhoisRecord"` field is falsy (absent,
null, empty dict, ...) yields the 404 outcome with one failed log entry
carrying the synthesized status 404. -/
theorem afterValidation_not_found (d t : String) (args : List (String × String))
    (text : String) (df : List (String × JVal))
    (h : truthy (pyGet df "WhoisRecord") = false) :
    afterValidation d t args (.response 200 text (some (.jobj df)))
      = { status := 404
          body := .jobj [("error", .jstr "Whois record not found for domain")]
          logs := [{ domain := d, info_type := t, http_status := 404,
                     success := false, registrar := .jnull }] } := by
  simp only [afterValidation]
  rw [if_neg (by simp)]
  simp [h]

/-- A 200 upstream response with a truthy dict record, domain view. -/
theorem afterValidation_success_domain (d : String) (args : List (String × String))
    (text : String) (df rf : List (String × JVal))
    (hrec : pyGet df "WhoisRecord" = .jobj rf)
    (htr : truthy (pyGet df "WhoisRecord") = true) :
    afterValidation d "domain" args (.response 200 text (some (.jobj df)))
      = { status := 200
          body := .jobj [("domain", .jstr d), ("type", .jstr "domain"),
                         ("data", domainInfoToJVal (extract_domain_information rf))]
          logs := [{ domain := d, info_type := "domain", http_status := 200,
                     success := true,
                     registrar := (extract_domain_information rf).registrar }] } := by
  simp only [afterValidation]
  rw [if_neg (by simp)]
  simp only [hrec]
  rw [if_pos (hrec ▸ htr)]
  simp

/-- A 200 upstream response with a truthy dict record, contact view. -/
theorem afterValidation_success_contact (d : String) (args : List (String × String))
    (text : String) (df rf : List (String × JVal))
    (hrec : pyGet df "WhoisRecord" = .jobj rf)
    (htr : truthy (pyGet df "WhoisRecord") = true) :
    afterValidation d "contact" args (.response 200 text (some (.jobj df)))
      = { status := 200
          body := .jobj [("domain", .jstr d), ("type", .jstr "contact"),
                         ("data", contactInfoToJVal (extract_contact_information rf))]
          logs := [{ domain := d, info_type := "contact", http_status := 200,
                     success := true, registrar := registrarNameTier rf }] } := by
  simp only [afterValidation]
  rw [if_neg (by simp)]
  simp only [hrec]
  rw [if_pos (hrec ▸ htr)]
  simp

/-- The excerpt in the 502 outcome never exceeds 300 characters. -/
theorem pyTake_le (s : String) (n : Nat) : (pyTake s n).length ≤ n := by
  unfold pyTake
  show (s.toList.take n).length ≤ n
  exact List.length_take_le n s.toList

/-- Each truncated host-name entry is at most 25 characters long. -/
theorem truncate_len_le (s : String) : (truncate_text (.jstr s)).length ≤ 25 := by
  simp only [truncate_text]
  by_cases h : s.length ≤ 25
  · rwa [if_pos h]
  · rw [if_neg h, String.length_append]
    have h1 : (String.mk (s.toList.take (25 - 3))).length
        = (s.toList.take (25 - 3)).length := rfl
    have h2 : ("..." : String).length = 3 := rfl
    rw [h1, h2]
    have h3 := List.length_take_le (25 - 3) s.toList
    omega

/-! ### Claim theorems -/

/-- Claim C1: for every record-like mapping, the hostname normaliser
resolves the `"nameServers"` host-name field in priority order (sequence
kept as-is element-wise via `str`; single string split on commas and/or
whitespace with consecutive delimiters as one separator, empty fragments
discarded, fragments trimmed; raw-text field with the same split rule;
else nothing), retries the identical extraction against `"registryData"`
when the primary attempt yields zero names and that object is present and
a dict, joins in extraction order with `", "` without deduplication or
sorting, and produces the empty string when both attempts yield nothing:
the source function equals the spec model verbatim. -/
theorem claim_C1 (record : List (String × JVal)) :
    normalize_hostnames record = specNormalizeHostnames record :=
  normalize_hostnames_eq_spec record

/-- Claim C2: truncation leaves strings of at most 25 characters
unchanged, maps longer strings to their first 22 characters followed by
`"..."`, maps non-strings to the empty string, and hence every entry of
the normaliser's joined output is at most 25 characters long. -/
theorem claim_C2 :
    (∀ s : String, s.length ≤ 25 → truncate_text (.jstr s) = s) ∧
    (∀ s : String, 25 < s.length →
       truncate_text (.jstr s) = String.mk (s.toList.take 22) ++ "...") ∧
    (∀ v : JVal, (∀ s : String, v ≠ .jstr s) → truncate_text v = "") ∧
    (∀ s : String, (truncate_text (.jstr s)).length ≤ 25) ∧
    (∀ record : List (String × JVal), ∃ entries : List String,
       normalize_hostnames record = String.intercalate ", " entries ∧
       ∀ e ∈ entries, e.length ≤ 25) := by
  refine ⟨?_, ?_, ?_, truncate_len_le, ?_⟩
  · intro s h
    simp only [truncate_text]
    rw [if_pos h]
  · intro s h
    simp only [truncate_text]
    rw [if_neg (by omega)]
  · intro v h
    cases v with
    | jstr s => exact absurd rfl (h s)
    | jnull => rfl
    | jbool b => rfl
    | jnum n => rfl
    | jarr xs => rfl
    | jobj fs => rfl
  · intro record
    rw [normalize_hostnames_eq_spec]
    unfold specNormalizeHostnames
    refine ⟨_, rfl, ?_⟩
    intro e he
    rcases List.mem_map.mp he with ⟨h, _, rfl⟩
    exact truncate_len_le h

/-- Witness for C2 at a 30-character host name: the output is the first
22 characters followed by the three-character marker. -/
theorem claim_C2_witness :
    truncate_text (.jstr "abcdefghijklmnopqrstuvwxyz1234") = "abcdefghijklmnopqrstuv..." := by
  rw [claim_C2.2.1 "abcdefghijklmnopqrstuvwxyz1234" (by decide)]
  decide

/-- Claim C3: the domain extractor fills every field by first-present-wins
(primary record, then `"registryData"`), where present means truthy;
registrar has the extra third tier from the primary record's
`"registrar"` object's `"name"` and defaults to the empty string;
domainName, registrationDate and expirationDate default to the empty
string; estimatedDomainAge is passed through uncoerced and may be null. -/
theorem claim_C3 (record : List (String × JVal)) :
    (extract_domain_information record).domainName = specDomainField record "domainName" ∧
    (extract_domain_information record).registrar = specRegistrar record ∧
    (extract_domain_information record).registrationDate = specDomainField record "createdDate" ∧
    (extract_domain_information record).expirationDate = specDomainField record "expiresDate" ∧
    (extract_domain_information record).estimatedDomainAge = specEstimatedAge record := by
  have hmid : registrarNameTier record
      = (match pyGet record "registrar" with
         | .jobj f => pyGet f "name"
         | _ => JVal.jnull) := rfl
  refine ⟨?_, ?_, ?_, ?_, ?_⟩ <;>
    simp only [extract_domain_information, specDomainField, specRegistrar,
               specEstimatedAge, pick_single, registryDataOf_eq_spec,
               or2_default, or3_registrar, hmid]

/-- Claim C4: each contact name is the `"name"` field of its sub-object
when that sub-object is present and a dict (empty string otherwise, also
when the name is absent or falsy); contactEmail is the first truthy of the
top-level `"contactEmail"` field then the registrant's `"email"`,
defaulting to the empty string; and no contact field consults
`"registryData"` (masking it leaves the output unchanged). -/
theorem claim_C4 (record : List (String × JVal)) :
    (extract_contact_information record).registrantName
        = specContactName record "registrant" ∧
    (extract_contact_information record).technicalContactName
        = specContactName record "technicalContact" ∧
    (extract_contact_information record).administrativeContactName
        = specContactName record "administrativeContact" ∧
    (extract_contact_information record).contactEmail = specContactEmail record ∧
    (∀ v : JVal, extract_contact_information (("registryData", v) :: record)
        = extract_contact_information record) := by
  refine ⟨?_, ?_, ?_, ?_, contact_ignores_registryData record⟩
  · exact contactName_eq record "registrant"
  · exact contactName_eq record "technicalContact"
  · exact contactName_eq record "administrativeContact"
  · show pyOr (pyOr (pyGet record "contactEmail")
        (pyGet (dictAt record "registrant") "email")) (.jstr "") = specContactEmail record
    rw [registrantEmail_eq, or2_email]
    rfl

/-- Claim C5: on every record mapping, however malformed its optional
sub-structures, both extractors terminate without raising (the strict
embeddings succeed) and return a value of the full `DomainInfo` /
`ContactInfo` shape, equal to the plain embedding's output. -/
theorem claim_C5 (rf : List (String × JVal)) :
    extract_domain_informationE (.jobj rf) = .ok (extract_domain_information rf) ∧
    extract_contact_informationE (.jobj rf) = .ok (extract_contact_information rf) :=
  ⟨extract_domain_informationE_ok rf, extract_contact_informationE_ok rf⟩

/-- Claim C6: on valid inputs, a non-200 upstream status yields a 502
outcome carrying the upstream's status and a ≤300-character excerpt of the
upstream body, with one logged attempt recording the upstream's actual
status and success false; a 200 response whose `"WhoisRecord"` field is
absent or empty yields a 404 outcome with one logged attempt recording a
synthesized 404 status and success false. -/
theorem claim_C6 (req : Request) (api_key : Option String)
    (pd : List (String × JVal)) (d0 t0 : String)
    (hpd : payloadDict req.payload = .ok pd)
    (hd : paramValue pd req.args "domain" = .ok d0)
    (ht : paramValue pd req.args "type" = .ok t0)
    (hdom : ¬ pyStrip d0 = "")
    (hty : pyLower (pyStrip t0) = "domain" ∨ pyLower (pyStrip t0) = "contact")
    (hkey : ¬ api_key.getD "" = "") :
    (∀ (status : Nat) (text : String) (body : Option JVal), status ≠ 200 →
       whois_lookup req api_key (.response status text body)
         = { status := 502
             body := .jobj [("error", .jstr "Upstream whois service error"),
                            ("status", .jnum (Int.ofNat status)),
                            ("details", .jstr (pyTake text 300))]
             logs := [{ domain := pyStrip d0, info_type := pyLower (pyStrip t0),
                        http_status := status, success := false, registrar := .jnull }] }
       ∧ (pyTake text 300).length ≤ 300) ∧
    (∀ (text : String) (df : List (String × JVal)),
       truthy (pyGet df "WhoisRecord") = false →
       whois_lookup req api_key (.response 200 text (some (.jobj df)))
         = { status := 404
             body := .jobj [("error", .jstr "Whois record not found for domain")]
             logs := [{ domain := pyStrip d0, info_type := pyLower (pyStrip t0),
                        http_status := 404, success := false, registrar := .jnull }] }) := by
  constructor
  · intro status text body h
    refine ⟨?_, pyTake_le text 300⟩
    rw [whois_lookup_valid req api_key _ pd d0 t0 hpd hd ht hdom hty hkey,
        afterValidation_upstream_error _ _ _ _ _ _ h]
  · intro text df h
    rw [whois_lookup_valid req api_key _ pd d0 t0 hpd hd ht hdom hty hkey,
        afterValidation_not_found _ _ _ _ _ h]

/-- Witness for C6: a concrete request over the JSON body, an upstream
503 with a short body, and an upstream 200 with an empty parsed record. -/
theorem claim_C6_witness :
    whois_lookup
        { payload := some (.jobj [("domain", .jstr "example.com"),
                                  ("type", .jstr "domain")]), args := [] }
        (some "k") (.response 503 "unavailable" none)
      = { status := 502
          body := .jobj [("error", .jstr "Upstream whois service error"),
                         ("status", .jnum 503),
                         ("details", .jstr "unavailable")]
          logs := [{ domain := "example.com", info_type := "domain",
                     http_status := 503, success := false, registrar := .jnull }] } ∧
    whois_lookup
        { payload := some (.jobj [("domain", .jstr "example.com"),
                                  ("type", .jstr "domain")]), args := [] }
        (some "k") (.response 200 "x" (some (.jobj [])))
      = { status := 404
          body := .jobj [("error", .jstr "Whois record not found for domain")]
          logs := [{ domain := "example.com", info_type := "domain",
                     http_status := 404, success := false, registrar := .jnull }] } := by
  have h := claim_C6
    { payload := some (.jobj [("domain", .jstr "example.com"),
                              ("type", .jstr "domain")]), args := [] }
    (some "k")
    [("domain", .jstr "example.com"), ("type", .jstr "domain")]
    "example.com" "domain" rfl rfl rfl (by decide) (Or.inl (by decide)) (by decide)
  constructor
  · rw [(h.1 503 "unavailable" none (by decide)).1]
    rfl
  · rw [h.2 "x" [] (by decide)]
    rfl

/-- Claim C7: a validation failure (empty domain after trimming, or a view
type other than domain/contact after trimming and lowercasing) terminates
with 400 and a missing credential with 500, in both cases with no log
entry and without consulting the upstream outcome; every other classified
outcome — including the generic exception path — logs exactly one
attempt. -/
theorem claim_C7 (req : Request) (api_key : Option String) (u : Upstream) :
    (∀ (pd : List (String × JVal)) (d0 t0 : String),
       payloadDict req.payload = .ok pd →
       paramValue pd req.args "domain" = .ok d0 →
       paramValue pd req.args "type" = .ok t0 →
       pyStrip d0 = "" →
       whois_lookup req api_key u
         = { status := 400, body := .jobj [("error", .jstr "Missing \x27domain\x27")],
             logs := [] }) ∧
    (∀ (pd : List (String × JVal)) (d0 t0 : String),
       payloadDict req.payload = .ok pd →
       paramValue pd req.args "domain" = .ok d0 →
       paramValue pd req.args "type" = .ok t0 →
       ¬ pyStrip d0 = "" →
       pyLower (pyStrip t0) ≠ "domain" ∧ pyLower (pyStrip t0) ≠ "contact" →
       whois_lookup req api_key u
         = { status := 400,
             body := .jobj [("error",
               .jstr "Invalid \x27type\x27. Use \x27domain\x27 or \x27contact\x27")],
             logs := [] }) ∧
    (∀ (pd : List (String × JVal)) (d0 t0 : String),
       payloadDict req.payload = .ok pd →
       paramValue pd req.args "domain" = .ok d0 →
       paramValue pd req.args "type" = .ok t0 →
       ¬ pyStrip d0 = "" →
       (pyLower (pyStrip t0) = "domain" ∨ pyLower (pyStrip t0) = "contact") →
       api_key.getD "" = "" →
       whois_lookup req api_key u
         = { status := 500,
             body := .jobj [("error", .jstr "Server not configured with WHOIS_API_KEY")],
             logs := [] }) ∧
    (∀ (pd : List (String × JVal)) (d0 t0 : String),
       payloadDict req.payload = .ok pd →
       paramValue pd req.args "domain" = .ok d0 →
       paramValue pd req.args "type" = .ok t0 →
       ¬ pyStrip d0 = "" →
       (pyLower (pyStrip t0) = "domain" ∨ pyLower (pyStrip t0) = "contact") →
       ¬ api_key.getD "" = "" →
       (whois_lookup req api_key u).logs.length = 1) ∧
    (∀ e : String, payloadDict req.payload = .error e →
       (whois_lookup req api_key u).logs.length = 1) ∧
    (∀ (pd : List (String × JVal)) (e : String),
       payloadDict req.payload = .ok pd →
       paramValue pd req.args "domain" = .error e →
       (whois_lookup req api_key u).logs.length = 1) ∧
    (∀ (pd : List (String × JVal)) (d0 e : String),
       payloadDict req.payload = .ok pd →
       paramValue pd req.args "domain" = .ok d0 →
       paramValue pd req.args "type" = .error e →
       (whois_lookup req api_key u).logs.length = 1) := by
  refine ⟨?_, ?_, ?_, ?_, ?_, ?_, ?_⟩
  · intro pd d0 t0 hpd hd ht hdom
    exact whois_lookup_missing_domain req api_key u pd d0 t0 hpd hd ht hdom
  · intro pd d0 t0 hpd hd ht hdom hty
    exact whois_lookup_bad_type req api_key u pd d0 t0 hpd hd ht hdom hty
  · intro pd d0 t0 hpd hd ht hdom hty hkey
    exact whois_lookup_no_key req api_key u pd d0 t0 hpd hd ht hdom hty hkey
  · intro pd d0 t0 hpd hd ht hdom hty hkey
    rw [whois_lookup_valid req api_key u pd d0 t0 hpd hd ht hdom hty hkey]
    exact afterValidation_logs _ _ _ _
  · intro e hpd
    rw [whois_lookup_payload_err req api_key u e hpd]
    rfl
  · intro pd e hpd hd
    rw [whois_lookup_domain_err req api_key u pd e hpd hd]
    rfl
  · intro pd d0 e hpd hd ht
    rw [whois_lookup_type_err req api_key u pd d0 e hpd hd ht]
    rfl

/-- Witness for C7: a request with no domain at all is rejected with 400
and produces no log entry, for any upstream outcome (here a timeout). -/
theorem claim_C7_witness :
    whois_lookup { payload := none, args := [] } none .timeout
      = { status := 400, body := .jobj [("error", .jstr "Missing \x27domain\x27")],
          logs := [] } :=
  (claim_C7 { payload := none, args := [] } none .timeout).1 [] "" "" rfl rfl rfl rfl

/-- Counterexample to C8 as stated: with the domain and view type supplied
in the JSON body (no query parameters), parsing completes with the
non-empty domain "example.com", yet the timeout path logs empty strings
for both fields — the handler reads `request.args` only, never the parsed
values. -/
theorem claim_C8_counterexample :
    (whois_lookup
        { payload := some (.jobj [("domain", .jstr "example.com"),
                                  ("type", .jstr "domain")]), args := [] }
        (some "k") .timeout).logs
      = [{ domain := "", info_type := "", http_status := 504, success := false,
           registrar := .jnull }] ∧
    paramValue [("domain", .jstr "example.com"), ("type", .jstr "domain")] [] "domain"
      = .ok "example.com" ∧
    pyStrip "example.com" ≠ "" := by
  refine ⟨rfl, rfl, by decide⟩

/-- Claim C8 (amended): on a timeout the handler responds 504 and logs one
attempt with status 504 and success false whose domain and view type are
taken from the raw query-string parameters only (defaulting to the empty
string when absent), ignoring the JSON body and without trimming or
lowercasing. -/
theorem claim_C8_amended (req : Request) (api_key : Option String)
    (pd : List (String × JVal)) (d0 t0 : String)
    (hpd : payloadDict req.payload = .ok pd)
    (hd : paramValue pd req.args "domain" = .ok d0)
    (ht : paramValue pd req.args "type" = .ok t0)
    (hdom : ¬ pyStrip d0 = "")
    (hty : pyLower (pyStrip t0) = "domain" ∨ pyLower (pyStrip t0) = "contact")
    (hkey : ¬ api_key.getD "" = "") :
    whois_lookup req api_key .timeout
      = { status := 504
          body := .jobj [("error", .jstr "Upstream whois request timed out")]
          logs := [{ domain := (argsGet req.args "domain").getD ""
                     info_type := (argsGet req.args "type").getD ""
                     http_status := 504, success := false, registrar := .jnull }] } := by
  rw [whois_lookup_valid req api_key .timeout pd d0 t0 hpd hd ht hdom hty hkey]
  rfl

/-- Witness for C8 (amended): query-string parameters are logged raw — the
trailing space of `"example.com "` survives into the log entry. -/
theorem claim_C8_witness :
    whois_lookup { payload := none,
                   args := [("domain", "example.com "), ("type", "domain")] }
        (some "k") .timeout
      = { status := 504
          body := .jobj [("error", .jstr "Upstream whois request timed out")]
          logs := [{ domain := "example.com ", info_type := "domain",
                     http_status := 504, success := false, registrar := .jnull }] } := by
  rw [claim_C8_amended
        { payload := none, args := [("domain", "example.com "), ("type", "domain")] }
        (some "k") [] "example.com " "domain" rfl rfl rfl (by decide)
        (Or.inl (by decide)) (by decide)]
  rfl

/-- Claim C9 (implicit): when the `"nameServers"` host-name field is a
non-empty list, every element counts as an extracted host name (each via
`str`, none discarded), the `"registryData"` fallback is not consulted
(the output is fully determined by the list), and the entries — including
empty strings — are truncated and joined with `", "`. -/
theorem claim_C9 (record fields : List (String × JVal)) (hs : List JVal)
    (hns : pyGet record "nameServers" = .jobj fields)
    (hhn : pyGet fields "hostNames" = .jarr hs)
    (hne : hs ≠ []) :
    extract_hostnames record = hs.map pyStr ∧
    (extract_hostnames record).length = hs.length ∧
    normalize_hostnames record
      = String.intercalate ", " ((hs.map pyStr).map (fun h => truncate_text (.jstr h))) := by
  have hrne : record.isEmpty = false := by
    cases record with
    | nil => simp [pyGet, jlookup] at hns
    | cons p r => rfl
  have hfne : fields.isEmpty = false := by
    cases fields with
    | nil => simp [pyGet, jlookup] at hhn
    | cons p r => rfl
  have htru : truthy (JVal.jobj fields) = true := by simp [truthy, hfne]
  have hex : extract_hostnames record = hs.map pyStr := by
    unfold extract_hostnames
    rw [if_neg (by simp [hrne]), hns]
    unfold pyOr
    rw [if_pos htru]
    simp only []
    rw [hhn]
  have hmapne : (hs.map pyStr).isEmpty = false := by
    cases hs with
    | nil => exact absurd rfl hne
    | cons a l => rfl
  refine ⟨hex, by rw [hex]; simp, ?_⟩
  simp only [normalize_hostnames]
  rw [hex, if_neg (by simp [hmapne]), if_neg (by simp [hmapne])]

/-- Witness for C9: a two-element list whose second element is the empty
string keeps both entries, producing an empty joined entry (a trailing
`", "`). -/
theorem claim_C9_witness :
    normalize_hostnames
        [("nameServers", .jobj [("hostNames", .jarr [.jstr "a.example", .jstr ""])])]
      = "a.example, " := by
  rw [(claim_C9
        [("nameServers", .jobj [("hostNames", .jarr [.jstr "a.example", .jstr ""])])]
        [("hostNames", .jarr [.jstr "a.example", .jstr ""])]
        [.jstr "a.example", .jstr ""] rfl rfl (by simp)).2.2]
  rfl

/-- Claim C10 (implicit): on every successful (200) lookup, the response
body's top-level `"domain"` and `"type"` fields echo the normalised
inputs — the domain stripped of surrounding whitespace and the type
stripped and lowercased — not the raw request values. -/
theorem claim_C10 (req : Request) (api_key : Option String)
    (pd : List (String × JVal)) (d0 t0 : String) (text : String)
    (df rf : List (String × JVal))
    (hpd : payloadDict req.payload = .ok pd)
    (hd : paramValue pd req.args "domain" = .ok d0)
    (ht : paramValue pd req.args "type" = .ok t0)
    (hdom : ¬ pyStrip d0 = "")
    (hty : pyLower (pyStrip t0) = "domain" ∨ pyLower (pyStrip t0) = "contact")
    (hkey : ¬ api_key.getD "" = "")
    (hrec : pyGet df "WhoisRecord" = .jobj rf)
    (htr : truthy (pyGet df "WhoisRecord") = true) :
    (whois_lookup req api_key (.response 200 text (some (.jobj df)))).status = 200 ∧
    bodyField (whois_lookup req api_key (.response 200 text (some (.jobj df)))) "domain"
      = some (.jstr (pyStrip d0)) ∧
    bodyField (whois_lookup req api_key (.response 200 text (some (.jobj df)))) "type"
      = some (.jstr (pyLower (pyStrip t0))) := by
  rcases hty with h | h
  · rw [whois_lookup_valid req api_key _ pd d0 t0 hpd hd ht hdom (Or.inl h) hkey, h,
        afterValidation_success_domain (pyStrip d0) req.args text df rf hrec htr]
    refine ⟨rfl, ?_, ?_⟩ <;> simp +decide [bodyField, jlookup]
  · rw [whois_lookup_valid req api_key _ pd d0 t0 hpd hd ht hdom (Or.inr h) hkey, h,
        afterValidation_success_contact (pyStrip d0) req.args text df rf hrec htr]
    refine ⟨rfl, ?_, ?_⟩ <;> simp +decide [bodyField, jlookup]

/-- Witness for C10: raw inputs `" Example.com "` and `" DOMAIN "` are
echoed as `"Example.com"` (stripped, case preserved) and `"domain"`
(stripped and lowercased) in the 200 response body. -/
theorem claim_C10_witness :
    bodyField
        (whois_lookup
          { payload := some (.jobj [("domain", .jstr " Example.com "),
                                    ("type", .jstr " DOMAIN ")]), args := [] }
          (some "k")
          (.response 200 ""
            (some (.jobj [("WhoisRecord",
                           .jobj [("domainName", .jstr "example.com")])]))))
        "domain" = some (.jstr "Example.com") ∧
    bodyField
        (whois_lookup
          { payload := some (.jobj [("domain", .jstr " Example.com "),
                                    ("type", .jstr " DOMAIN ")]), args := [] }
          (some "k")
          (.response 200 ""
            (some (.jobj [("WhoisRecord",
                           .jobj [("domainName", .jstr "example.com")])]))))
        "type" = some (.jstr "domain") := by
  have h := claim_C10
    { payload := some (.jobj [("domain", .jstr " Example.com "),
                              ("type", .jstr " DOMAIN ")]), args := [] }
    (some "k")
    [("domain", .jstr " Example.com "), ("type", .jstr " DOMAIN ")]
    " Example.com " " DOMAIN " ""
    [("WhoisRecord", .jobj [("domainName", .jstr "example.com")])]
    [("domainName", .jstr "example.com")]
    rfl rfl rfl (by decide) (Or.inl (by decide)) (by decide) rfl (by decide)
  exact ⟨by rw [h.2.1]; rfl, by rw [h.2.2]; rfl⟩
